import Mathlib

/- Verification of the agent-orchestration core of the Reactive-vs-Proactive-Agents
repository (src/agents.py and src/app.py), as a shallow embedding in Lean.

The external collaborators (the Groq and Gemini chat providers and the Tavily
search tool) are modeled by an oracle structure World whose fields give the
outcome of each network call: Except.error msg models a Python exception whose
str() form is msg, and Except.ok v models a normal return. Library constructors
that perform no network work (ChatGroq, ChatGoogleGenerativeAI, the prompt
templates, create_tool_calling_agent and AgentExecutor, all applied to
statically well-formed arguments) are modeled as pure, non-raising setup; the
one constructor the source itself guards with a local try/except,
TavilySearchResults, is modeled as fallible. The process environment
(os.environ) is threaded explicitly as an association list. The heterogeneous
Python values that the proactive executor may return are modeled by the
inductive PyObj. Every provider-level call the code issues is recorded in an
explicit trace of ProviderCall events. -/

/-- Process environment: association list from variable names to values. -/
abbrev EnvMap := List (String × String)

/-- Models assignment os.environ[k] = v : overwrite any existing binding of k. -/
def setEnv (env : EnvMap) (k v : String) : EnvMap :=
  (k, v) :: env.filter (fun p => !(p.1 == k))

/-- Models os.environ.get(k). -/
def getEnv (env : EnvMap) (k : String) : Option String :=
  (env.find? (fun p => p.1 == k)).map (fun p => p.2)

/-- A Python value as seen by the result-extraction code in run_proactive:
a string, a dict, a list, an object carrying a .content attribute together
with its str() form (a chat message; content none models a missing or None
attribute), or any other object identified by its str() form. -/
inductive PyObj : Type where
  | pyStr : String → PyObj
  | pyDict : List (String × PyObj) → PyObj
  | pyList : List PyObj → PyObj
  | message : Option PyObj → String → PyObj
  | pyOther : String → PyObj

mutual

/-- Models the Python builtin str() on the values of PyObj. -/
def PyObj.strForm : PyObj → String
  | PyObj.pyStr s => s
  | PyObj.pyDict es => "\x7b" ++ String.intercalate ", " (reprEntries es) ++ "\x7d"
  | PyObj.pyList xs => "[" ++ String.intercalate ", " (reprItems xs) ++ "]"
  | PyObj.message _ r => r
  | PyObj.pyOther r => r

/-- Models the Python builtin repr() on the values of PyObj. -/
def PyObj.reprForm : PyObj → String
  | PyObj.pyStr s => "\x27" ++ s ++ "\x27"
  | PyObj.pyDict es => "\x7b" ++ String.intercalate ", " (reprEntries es) ++ "\x7d"
  | PyObj.pyList xs => "[" ++ String.intercalate ", " (reprItems xs) ++ "]"
  | PyObj.message _ r => r
  | PyObj.pyOther r => r

/-- repr of the entries of a dict, in order. -/
def reprEntries : List (String × PyObj) → List String
  | [] => []
  | (k, v) :: rest => ("\x27" ++ k ++ "\x27: " ++ PyObj.reprForm v) :: reprEntries rest

/-- repr of the items of a list, in order. -/
def reprItems : List PyObj → List String
  | [] => []
  | x :: rest => PyObj.reprForm x :: reprItems rest

end

/-- Python truthiness on PyObj values: empty strings, dicts and lists are
falsy; generic objects (messages included) are truthy. -/
def pyTruthy : PyObj → Bool
  | PyObj.pyStr s => !(s == "")
  | PyObj.pyDict es => !es.isEmpty
  | PyObj.pyList xs => !xs.isEmpty
  | PyObj.message _ _ => true
  | PyObj.pyOther _ => true

/-- Is this value a Python str? -/
def PyObj.isStr : PyObj → Bool
  | PyObj.pyStr _ => true
  | _ => false

/-- Dict membership and lookup: models (k in response) and response[k]. -/
def dictLookup (es : List (String × PyObj)) (k : String) : Option PyObj :=
  (es.find? (fun p => p.1 == k)).map (fun p => p.2)

/-- Models getattr(m, "content", None). -/
def getContentAttr : PyObj → Option PyObj
  | PyObj.message c _ => c
  | _ => none

/-- Models (c if isinstance(c, str) else str(c)). -/
def contentText (c : PyObj) : String :=
  match c with
  | PyObj.pyStr s => s
  | other => PyObj.strForm other

/-- The texts collected from a messages list (lines 143-148 of src/agents.py):
for each element, take its .content attribute when present and truthy. -/
def collectTexts : List PyObj → List String
  | [] => []
  | m :: rest =>
    match getContentAttr m with
    | some c => if pyTruthy c then contentText c :: collectTexts rest else collectTexts rest
    | none => collectTexts rest

/-- Python truthiness of an optional string (None and the empty string are falsy). -/
def optTruthy : Option String → Bool
  | none => false
  | some s => !(s == "")

/-- The groq_config tuple (api_key, model, temperature). -/
structure GroqConfig where
  api_key : String
  model : String
  temperature : Rat

/-- The gemini_config tuple (api_key, model, temperature, use_search, tavily_key). -/
structure GeminiConfig where
  api_key : String
  model : String
  temperature : Rat
  use_search : Bool
  tavily_key : Option String

/-- One provider-level call issued by the orchestration code:
a Groq health check, the Groq drafting completion, a Tavily tool
construction (against a given environment), or the proactive executor
invocation. -/
inductive ProviderCall : Type where
  | health : String → String → ProviderCall
  | draftCompletion : String → String → String → ProviderCall
  | toolCreate : EnvMap → ProviderCall
  | refineInvoke : String → String → Bool → String → String → ProviderCall

/-- Does the event record the drafting completion call? -/
def ProviderCall.isDraft : ProviderCall → Bool
  | ProviderCall.draftCompletion _ _ _ => true
  | _ => false

/-- Number of drafting completion calls in a trace. -/
def draftCalls (t : List ProviderCall) : Nat := (t.filter ProviderCall.isDraft).length

/-- The oracle for the external services. Each field fixes the outcome of one
kind of network call, as a function of everything the call can observe. -/
structure World where
  /-- ChatGroq construction with temperature 0 plus the minimal health-check
  chain invoke of validate_groq_key, keyed by (api_key, model). -/
  groq_health : String → String → Except String Unit
  /-- The drafting chain invoke of run_reactive, keyed by
  (api_key, model, temperature, input); returns response.content. -/
  groq_invoke : String → String → Rat → String → Except String String
  /-- TavilySearchResults construction with max_results 5, which reads the
  process environment. -/
  tavily_init : EnvMap → Except String Unit
  /-- The proactive executor invoke, keyed by (api_key, model, temperature,
  tools present, environment, draft_content, original_topic). -/
  gemini_invoke : String → String → Rat → Bool → EnvMap → String → String → Except String PyObj

/-- validate_groq_key (src/agents.py lines 11-25): one health-check call;
returns None on success and str(e) on failure; the call is recorded in the
trace. The try block never propagates. -/
def validate_groq_key (W : World) (api_key model : String) :
    Option String × List ProviderCall :=
  (match W.groq_health api_key model with
   | Except.ok _ => none
   | Except.error e => some e,
   [ProviderCall.health api_key model])

/-- create_reactive_agent (src/agents.py lines 27-55): validates again and
raises ValueError when the validation message is truthy; otherwise builds the
drafting chain (the ChatGroq construction and the static prompt template are
non-raising setup, so the chain value itself carries no data that the invoke
oracle does not already receive). -/
def create_reactive_agent (W : World) (api_key model_name : String) :
    Except String Unit × List ProviderCall :=
  let v := validate_groq_key W api_key model_name
  if optTruthy v.1 then
    (Except.error ("Groq API key or model \x27" ++ model_name ++ "\x27 is invalid: "
       ++ v.1.getD ""), v.2)
  else
    (Except.ok (), v.2)

/-- run_reactive (src/agents.py lines 111-122): preflight validation, agent
creation, then the drafting completion call; any exception on the way becomes
a string prefixed with "Reactive Agent Error: ". -/
def run_reactive (W : World) (prompt : String) (cfg : GroqConfig) :
    String × List ProviderCall :=
  let v := validate_groq_key W cfg.api_key cfg.model
  if optTruthy v.1 then
    ("Reactive Agent Error: " ++ v.1.getD "", v.2)
  else
    match create_reactive_agent W cfg.api_key cfg.model with
    | (Except.error e, t2) => ("Reactive Agent Error: " ++ e, v.2 ++ t2)
    | (Except.ok _, t2) =>
      match W.groq_invoke cfg.api_key cfg.model cfg.temperature prompt with
      | Except.ok content =>
          (content, v.2 ++ t2 ++ [ProviderCall.draftCompletion cfg.api_key cfg.model prompt])
      | Except.error e =>
          ("Reactive Agent Error: " ++ e,
            v.2 ++ t2 ++ [ProviderCall.draftCompletion cfg.api_key cfg.model prompt])

/-- create_proactive_agent (src/agents.py lines 57-96): when use_search and
the Tavily key are both truthy, writes TAVILY_API_KEY into the process
environment and attempts the tool construction, absorbing its failure into an
empty tool list; returns whether tools are available, the updated environment
and the trace. The LLM, prompt and executor constructions are non-raising
setup. -/
def create_proactive_agent (W : World) (api_key model_name : String)
    (temperature : Rat) (use_search : Bool) (tavily_api_key : Option String)
    (env : EnvMap) : Bool × EnvMap × List ProviderCall :=
  if use_search && optTruthy tavily_api_key then
    let env2 := setEnv env "TAVILY_API_KEY" (tavily_api_key.getD "")
    match W.tavily_init env2 with
    | Except.ok _ => (true, env2, [ProviderCall.toolCreate env2])
    | Except.error _ => (false, env2, [ProviderCall.toolCreate env2])
  else
    (false, env, [])

/-- The result-extraction logic of run_proactive (src/agents.py lines
136-158), applied to the value returned by the executor invoke. -/
def extract_output (response : PyObj) : PyObj :=
  match response with
  | PyObj.pyDict es =>
    match dictLookup es "output" with
    | some v => v
    | none =>
      match dictLookup es "output_text" with
      | some v => v
      | none =>
        match dictLookup es "final_output" with
        | some v => v
        | none =>
          match dictLookup es "messages" with
          | some (PyObj.pyList ms) =>
            let texts := collectTexts ms
            if texts.isEmpty then PyObj.pyStr (PyObj.strForm (PyObj.pyDict es))
            else PyObj.pyStr (String.intercalate "\n" texts)
          | _ => PyObj.pyStr (PyObj.strForm (PyObj.pyDict es))
  | r =>
    match getContentAttr r with
    | some c =>
      if pyTruthy c then c
      else
        match r with
        | PyObj.pyStr s => PyObj.pyStr s
        | _ => PyObj.pyStr (PyObj.strForm r)
    | none =>
      match r with
      | PyObj.pyStr s => PyObj.pyStr s
      | _ => PyObj.pyStr (PyObj.strForm r)

/-- run_proactive (src/agents.py lines 125-160): creates the proactive
executor, invokes it with the draft and the original topic, and extracts the
final content across return shapes; any exception becomes a string prefixed
with "Proactive Agent Error: ". Returns the result, the final environment and
the trace. -/
def run_proactive (W : World) (prompt : String) (cfg : GeminiConfig)
    (draft_content : String) (env : EnvMap) :
    PyObj × EnvMap × List ProviderCall :=
  let c := create_proactive_agent W cfg.api_key cfg.model cfg.temperature
             cfg.use_search cfg.tavily_key env
  match W.gemini_invoke cfg.api_key cfg.model cfg.temperature c.1 c.2.1
          draft_content prompt with
  | Except.ok response =>
      (extract_output response, c.2.1,
        c.2.2 ++ [ProviderCall.refineInvoke cfg.api_key cfg.model c.1 draft_content prompt])
  | Except.error e =>
      (PyObj.pyStr ("Proactive Agent Error: " ++ e), c.2.1,
        c.2.2 ++ [ProviderCall.refineInvoke cfg.api_key cfg.model c.1 draft_content prompt])

/-- run_agents_parallel (src/agents.py lines 100-172): the two-worker pool
degenerates to sequential execution, because the proactive task is only
submitted after the reactive future has been awaited; the draft (or its error
string) is fed to the proactive step and both results are returned, together
with the final environment and the combined trace. -/
def run_agents_parallel (W : World) (prompt : String) (groq_config : GroqConfig)
    (gemini_config : GeminiConfig) (env : EnvMap) :
    (String × PyObj) × EnvMap × List ProviderCall :=
  let r := run_reactive W prompt groq_config
  let p := run_proactive W prompt gemini_config r.1 env
  ((r.1, p.1), p.2.1, r.2 ++ p.2.2)

/-- Python-style strip over both ends: drop the longest run of characters
satisfying p from the front and from the back. -/
def pyStrip (p : Char → Bool) (s : String) : String :=
  String.mk (((s.toList.dropWhile p).reverse.dropWhile p).reverse)

/-- The ASCII whitespace characters stripped by the Python str.strip()
call in _sanitize (the keys pasted into the UI are ASCII). -/
def pyIsSpace (c : Char) : Bool :=
  c == ' ' || c == '\t' || c == '\n' || c == '\r' || c == '\x0b' || c == '\x0c'

/-- The double-quote character. -/
def isDoubleQuote (c : Char) : Bool := c == Char.ofNat 34

/-- The single-quote character. -/
def isSingleQuote (c : Char) : Bool := c == Char.ofNat 39

/-- _sanitize (src/app.py lines 79-82): None maps to the empty string;
otherwise strip whitespace, then double quotes, then single quotes. -/
def _sanitize : Option String → String
  | none => ""
  | some key => pyStrip isSingleQuote (pyStrip isDoubleQuote (pyStrip pyIsSpace key))

/-- The sidebar session state consumed by the run-button handler of
src/app.py. -/
structure AppState where
  gemini_key_input : Option String
  groq_key_input : Option String
  tavily_key_input : Option String
  use_search : Bool
  groq_model : String
  groq_temp : Rat
  gemini_model : String
  gemini_temp : Rat

/-- The run-button wiring of src/app.py lines 85-106: sanitize the keys,
reject missing ones (the st.error path, modeled as none), and assemble the
two config tuples that are passed to run_agents_parallel. -/
def gather_configs (s : AppState) : Option (GroqConfig × GeminiConfig) :=
  let gemini_key := _sanitize s.gemini_key_input
  let groq_key := _sanitize s.groq_key_input
  let tavily_key := if s.use_search then _sanitize s.tavily_key_input else ""
  if gemini_key == "" || groq_key == "" || (s.use_search && tavily_key == "") then
    none
  else
    some (⟨groq_key, s.groq_model, s.groq_temp⟩,
          ⟨gemini_key, s.gemini_model, s.gemini_temp, s.use_search, some tavily_key⟩)

/-- A provider response is string-shaped when the field that extract_output
would hand back verbatim (the first present one of output, output_text and
final_output for a dict, or a truthy .content attribute for a message object)
holds a Python str; on all other paths extraction builds a string itself. -/
def stringShaped : PyObj → Bool
  | PyObj.pyDict es =>
    (match dictLookup es "output" with
     | some v => v.isStr
     | none =>
       match dictLookup es "output_text" with
       | some v => v.isStr
       | none =>
         match dictLookup es "final_output" with
         | some v => v.isStr
         | none => true)
  | PyObj.message c _ =>
    (match c with
     | some v => !pyTruthy v || v.isStr
     | none => true)
  | _ => true

/-- Specification of a both-ends strip: t is obtained from s by removing a
run of characters satisfying p at each end, and t itself neither starts nor
ends with such a character. -/
def stripSpec (p : Char → Bool) (s t : String) : Prop :=
  (∃ pre post, s.toList = pre ++ t.toList ++ post ∧
     (∀ c ∈ pre, p c = true) ∧ (∀ c ∈ post, p c = true)) ∧
  (∀ c, t.toList.head? = some c → p c = false) ∧
  (∀ c, t.toList.getLast? = some c → p c = false)

/-- A world whose calls have fixed outcomes, independent of their inputs. -/
def constWorld (h : Except String Unit) (d : Except String String)
    (tv : Except String Unit) (g : Except String PyObj) : World :=
  ⟨fun _ _ => h, fun _ _ _ _ => d, fun _ => tv, fun _ _ _ _ _ _ _ => g⟩

/-- A sample Groq config for concrete runs. -/
def gcfg0 : GroqConfig := ⟨"groq-key", "llama-3.1-8b-instant", 0⟩

/-- A sample Gemini config with search disabled. -/
def mcfg0 : GeminiConfig := ⟨"gem-key", "gemini-2.5-flash", 0, false, none⟩

/-- A sample Gemini config with search enabled and a Tavily key. -/
def mcfg1 : GeminiConfig := ⟨"gem-key", "gemini-2.5-flash", 0, true, some "tav-key"⟩

/-- A world where every call succeeds: the health check passes, the draft
call returns DRAFT, the tool constructor succeeds and the proactive executor
returns the plain string REFINED. -/
def wHappy : World :=
  constWorld (Except.ok ()) (Except.ok "DRAFT") (Except.ok ())
    (Except.ok (PyObj.pyStr "REFINED"))

/-- A world where the proactive executor returns a dict whose output field
holds a non-string value (an empty dict). -/
def wOutDict : World :=
  constWorld (Except.ok ()) (Except.ok "DRAFT") (Except.ok ())
    (Except.ok (PyObj.pyDict [("output", PyObj.pyDict [])]))

/-- A world where the proactive executor returns a dict whose output field
holds the empty string. -/
def wOutEmpty : World :=
  constWorld (Except.ok ()) (Except.ok "DRAFT") (Except.ok ())
    (Except.ok (PyObj.pyDict [("output", PyObj.pyStr "")]))

/-- A world where the Groq health check fails with an exception whose str()
form is the empty string. -/
def wEmptyErr : World :=
  constWorld (Except.error "") (Except.ok "DRAFT") (Except.ok ())
    (Except.ok (PyObj.pyStr "REFINED"))

/-- A world where the Groq health check fails with an auth error. -/
def wAuthErr : World :=
  constWorld (Except.error "auth failed") (Except.ok "DRAFT") (Except.ok ())
    (Except.ok (PyObj.pyStr "REFINED"))

/-- A world where the Tavily tool construction fails. -/
def wTavFail : World :=
  constWorld (Except.ok ()) (Except.ok "DRAFT") (Except.error "bad tavily key")
    (Except.ok (PyObj.pyStr "REFINED"))

/-- A concrete sidebar state with quoted, padded keys. -/
def appState0 : AppState :=
  ⟨some " \x27gem-key\x27 ", some " \x22groq-key\x22 ", some "tav-key",
   true, "llama-3.1-8b-instant", 0, "gemini-2.5-flash", 0⟩

/-- The head of a dropWhile result never satisfies the dropped predicate. -/
theorem head?_dropWhile_not {α : Type} (p : α → Bool) (l : List α) :
    ∀ c, (l.dropWhile p).head? = some c → p c = false := by
  induction l with
  | nil => intro c h; simp [List.dropWhile] at h
  | cons a t ih =>
    intro c h
    rw [List.dropWhile_cons] at h
    by_cases hp : p a
    · rw [if_pos hp] at h
      exact ih c h
    · rw [if_neg hp] at h
      simp only [List.head?_cons, Option.some.injEq] at h
      subst h
      exact Bool.eq_false_iff.mpr hp

/-- Setting a variable makes it readable with the written value. -/
theorem getEnv_setEnv (env : EnvMap) (k v : String) :
    getEnv (setEnv env k v) k = some v := by
  simp [getEnv, setEnv, List.find?]

/-- pyStrip satisfies the both-ends strip specification. -/
theorem pyStrip_sound (p : Char → Bool) (s : String) : stripSpec p s (pyStrip p s) := by
  have htl : (pyStrip p s).toList = ((s.toList.dropWhile p).reverse.dropWhile p).reverse := rfl
  unfold stripSpec
  rw [htl]
  refine ⟨⟨s.toList.takeWhile p,
      ((s.toList.dropWhile p).reverse.takeWhile p).reverse, ?_, ?_, ?_⟩, ?_, ?_⟩
  · have e1 : s.toList.takeWhile p ++ s.toList.dropWhile p = s.toList :=
      List.takeWhile_append_dropWhile p s.toList
    have e2 : (s.toList.dropWhile p).reverse.takeWhile p ++
        (s.toList.dropWhile p).reverse.dropWhile p = (s.toList.dropWhile p).reverse :=
      List.takeWhile_append_dropWhile p (s.toList.dropWhile p).reverse
    calc s.toList = s.toList.takeWhile p ++ s.toList.dropWhile p := e1.symm
      _ = s.toList.takeWhile p ++ (s.toList.dropWhile p).reverse.reverse := by
            rw [List.reverse_reverse]
      _ = s.toList.takeWhile p ++ ((s.toList.dropWhile p).reverse.takeWhile p ++
            (s.toList.dropWhile p).reverse.dropWhile p).reverse := by rw [e2]
      _ = s.toList.takeWhile p ++ (((s.toList.dropWhile p).reverse.dropWhile p).reverse ++
            ((s.toList.dropWhile p).reverse.takeWhile p).reverse) := by
            rw [List.reverse_append]
      _ = s.toList.takeWhile p ++ ((s.toList.dropWhile p).reverse.dropWhile p).reverse ++
            ((s.toList.dropWhile p).reverse.takeWhile p).reverse := by
            rw [List.append_assoc]
  · intro c hc
    exact List.mem_takeWhile_imp hc
  · intro c hc
    rw [List.mem_reverse] at hc
    exact List.mem_takeWhile_imp hc
  · intro c hc
    rw [List.head?_reverse] at hc
    have hne : (s.toList.dropWhile p).reverse.dropWhile p ≠ [] := by
      intro h0
      rw [h0] at hc
      simp at hc
    have e2 : (s.toList.dropWhile p).reverse.takeWhile p ++
        (s.toList.dropWhile p).reverse.dropWhile p = (s.toList.dropWhile p).reverse :=
      List.takeWhile_append_dropWhile p (s.toList.dropWhile p).reverse
    have hlast : (s.toList.dropWhile p).reverse.getLast? = some c := by
      rw [← e2, List.getLast?_append, hc]
      rfl
    rw [List.getLast?_reverse] at hlast
    exact head?_dropWhile_not p s.toList c hlast
  · intro c hc
    rw [List.getLast?_reverse] at hc
    exact head?_dropWhile_not p (s.toList.dropWhile p).reverse c hc

/-- Every run of the reactive step yields either the drafting call content
verbatim or a Reactive-Agent-Error string. -/
theorem run_reactive_shape (W : World) (prompt : String) (cfg : GroqConfig) :
    (∃ c, W.groq_invoke cfg.api_key cfg.model cfg.temperature prompt = Except.ok c ∧
      (run_reactive W prompt cfg).1 = c) ∨
    (∃ t, (run_reactive W prompt cfg).1 = "Reactive Agent Error: " ++ t) := by
  unfold run_reactive validate_groq_key create_reactive_agent
  cases hh : W.groq_health cfg.api_key cfg.model with
  | ok u =>
    simp only [hh, optTruthy]
    cases hi : W.groq_invoke cfg.api_key cfg.model cfg.temperature prompt with
    | ok c =>
      left
      exact ⟨c, rfl, by simp [hi, validate_groq_key, hh, optTruthy]⟩
    | error e =>
      right
      exact ⟨e, by simp [hi, validate_groq_key, hh, optTruthy]⟩
  | error e =>
    by_cases he : e = ""
    · subst he
      simp only [hh, optTruthy]
      cases hi : W.groq_invoke cfg.api_key cfg.model cfg.temperature prompt with
      | ok c =>
        left
        exact ⟨c, rfl, by simp [hi, validate_groq_key, hh, optTruthy]⟩
      | error e2 =>
        right
        exact ⟨e2, by simp [hi, validate_groq_key, hh, optTruthy]⟩
    · right
      have hbe : (e == "") = false := beq_eq_false_iff_ne.mpr he
      exact ⟨e, by simp [validate_groq_key, hh, optTruthy, hbe]⟩

/-- Every run of the proactive step yields either the extraction of a
provider response or a Proactive-Agent-Error string. -/
theorem run_proactive_shape (W : World) (prompt : String) (cfg : GeminiConfig)
    (draft : String) (env : EnvMap) :
    (∃ resp, (run_proactive W prompt cfg draft env).1 = extract_output resp) ∨
    (∃ t, (run_proactive W prompt cfg draft env).1 =
      PyObj.pyStr ("Proactive Agent Error: " ++ t)) := by
  unfold run_proactive
  cases hg : W.gemini_invoke cfg.api_key cfg.model cfg.temperature
      (create_proactive_agent W cfg.api_key cfg.model cfg.temperature
        cfg.use_search cfg.tavily_key env).1
      (create_proactive_agent W cfg.api_key cfg.model cfg.temperature
        cfg.use_search cfg.tavily_key env).2.1
      draft prompt with
  | ok r => exact Or.inl ⟨r, by simp [hg]⟩
  | error e => exact Or.inr ⟨e, by simp [hg]⟩

/-- The proactive step leaves the environment exactly as agent creation
left it: the invoke itself never writes to it. -/
theorem run_proactive_env (W : World) (prompt : String) (cfg : GeminiConfig)
    (draft : String) (env : EnvMap) :
    (run_proactive W prompt cfg draft env).2.1 =
      (create_proactive_agent W cfg.api_key cfg.model cfg.temperature
        cfg.use_search cfg.tavily_key env).2.1 := by
  unfold run_proactive
  cases hg : W.gemini_invoke cfg.api_key cfg.model cfg.temperature
      (create_proactive_agent W cfg.api_key cfg.model cfg.temperature
        cfg.use_search cfg.tavily_key env).1
      (create_proactive_agent W cfg.api_key cfg.model cfg.temperature
        cfg.use_search cfg.tavily_key env).2.1
      draft prompt with
  | ok r => simp [hg]
  | error e => simp [hg]

/-- String-shaped responses extract to Python strings. -/
theorem extract_isStr_of_stringShaped (resp : PyObj) (h : stringShaped resp = true) :
    (extract_output resp).isStr = true := by
  cases resp with
  | pyStr s => simp [extract_output, getContentAttr, PyObj.isStr]
  | pyList xs => simp [extract_output, getContentAttr, PyObj.isStr]
  | pyOther r => simp [extract_output, getContentAttr, PyObj.isStr]
  | message c r =>
    cases c with
    | none => simp [extract_output, getContentAttr, PyObj.isStr]
    | some v =>
      simp only [stringShaped] at h
      by_cases ht : pyTruthy v
      · simp only [ht, Bool.not_true, Bool.false_or] at h
        simp [extract_output, getContentAttr, ht, h]
      · have ht2 : pyTruthy v = false := Bool.eq_false_iff.mpr ht
        simp [extract_output, getContentAttr, ht2, PyObj.isStr]
  | pyDict es =>
    simp only [stringShaped] at h
    simp only [extract_output]
    cases h1 : dictLookup es "output" with
    | some v =>
      rw [h1] at h
      simpa [h1] using h
    | none =>
      rw [h1] at h
      cases h2 : dictLookup es "output_text" with
      | some v =>
        rw [h2] at h
        simpa [h2] using h
      | none =>
        rw [h2] at h
        cases h3 : dictLookup es "final_output" with
        | some v =>
          rw [h3] at h
          simpa [h3] using h
        | none =>
          cases h4 : dictLookup es "messages" with
          | some v =>
            cases v with
            | pyList ms =>
              by_cases h5 : (collectTexts ms).isEmpty
              · simp [h4, h5, PyObj.isStr]
              · have h6 : (collectTexts ms).isEmpty = false := Bool.eq_false_iff.mpr h5
                simp [h4, h6, PyObj.isStr]
            | pyStr s => simp [h4, PyObj.isStr]
            | pyDict es2 => simp [h4, PyObj.isStr]
            | message c2 r2 => simp [h4, PyObj.isStr]
            | pyOther r2 => simp [h4, PyObj.isStr]
          | none => simp [h4, PyObj.isStr]

/-- Claim C1, counterexample: when the proactive executor responds with a
dict whose output field holds a non-string value (here an empty dict), the
second component returned by run_agents_parallel is that value itself, not a
string — so the runner does not return a pair of strings on every input. -/
theorem c1_counterexample :
    (run_agents_parallel wOutDict "topic" gcfg0 mcfg0 []).1.2 = PyObj.pyDict [] ∧
    PyObj.isStr (run_agents_parallel wOutDict "topic" gcfg0 mcfg0 []).1.2 = false :=
  ⟨rfl, rfl⟩

/-- Claim C1 (amended): run_agents_parallel never propagates an exception
raised inside either agent body: the first component is either the drafting
call content or a string of the form "Reactive Agent Error: ...", and the
second component is either the extraction of a provider response (returned
as-is, hence possibly non-string when the response holds a non-string final
output) or a string of the form "Proactive Agent Error: ...". -/
theorem c1_run_never_propagates (W : World) (prompt : String) (gc : GroqConfig)
    (mc : GeminiConfig) (env : EnvMap) :
    ((∃ c, W.groq_invoke gc.api_key gc.model gc.temperature prompt = Except.ok c ∧
        (run_agents_parallel W prompt gc mc env).1.1 = c) ∨
      (∃ t, (run_agents_parallel W prompt gc mc env).1.1 = "Reactive Agent Error: " ++ t)) ∧
    ((∃ resp, (run_agents_parallel W prompt gc mc env).1.2 = extract_output resp) ∨
      (∃ t, (run_agents_parallel W prompt gc mc env).1.2 =
        PyObj.pyStr ("Proactive Agent Error: " ++ t))) := by
  constructor
  · have h := run_reactive_shape W prompt gc
    exact h
  · have h := run_proactive_shape W prompt mc (run_reactive W prompt gc).1 env
    exact h

/-- Claim C2, counterexample: with search disabled and the provider returning
the dict-shaped result whose output field is the empty string, run_proactive
returns the empty string — a string, but not a non-empty one. -/
theorem c2_counterexample :
    (run_proactive wOutEmpty "topic" mcfg0 "DRAFT" []).1 = PyObj.pyStr "" :=
  rfl

/-- Claim C2 (amended): run_proactive never raises: every exception from the
executor invoke is converted to a Proactive-Agent-Error string and every
success is the extraction of the provider response; the extraction yields a
Python str on every string-shaped response (dict-shaped with a string final
output, message-shaped, plain-string, and every shape without a verbatim
field), though that string may be empty. -/
theorem c2_refine_total (W : World) (prompt : String) (cfg : GeminiConfig)
    (draft : String) (env : EnvMap) :
    ((∃ resp, (run_proactive W prompt cfg draft env).1 = extract_output resp) ∨
      (∃ t, (run_proactive W prompt cfg draft env).1 =
        PyObj.pyStr ("Proactive Agent Error: " ++ t))) ∧
    (∀ resp, stringShaped resp = true → (extract_output resp).isStr = true) := by
  constructor
  · exact run_proactive_shape W prompt cfg draft env
  · intro resp h
    exact extract_isStr_of_stringShaped resp h

/-- Claim C2, witness: the amended theorem applied in the happy world, and
its extraction clause discharged at the plain-string response. -/
theorem c2_refine_total_witness :
    (extract_output (PyObj.pyStr "hello")).isStr = true :=
  (c2_refine_total wHappy "topic" mcfg0 "DRAFT" []).2 (PyObj.pyStr "hello") rfl

/-- Claim C3: the extraction prefers the dedicated output field when present,
otherwise joins the truthy textual message contents in order, otherwise falls
back to the str() form of the response; in particular the dict with output
field "final text" extracts to exactly "final text". -/
theorem c3_extraction_policy :
    (∀ es v, dictLookup es "output" = some v →
      extract_output (PyObj.pyDict es) = v) ∧
    (∀ es ms, dictLookup es "output" = none → dictLookup es "output_text" = none →
      dictLookup es "final_output" = none →
      dictLookup es "messages" = some (PyObj.pyList ms) →
      collectTexts ms ≠ [] →
      extract_output (PyObj.pyDict es) =
        PyObj.pyStr (String.intercalate "\n" (collectTexts ms))) ∧
    (∀ es, dictLookup es "output" = none → dictLookup es "output_text" = none →
      dictLookup es "final_output" = none → dictLookup es "messages" = none →
      extract_output (PyObj.pyDict es) =
        PyObj.pyStr (PyObj.strForm (PyObj.pyDict es))) ∧
    extract_output (PyObj.pyDict [("output", PyObj.pyStr "final text")]) =
      PyObj.pyStr "final text" := by
  refine ⟨?_, ?_, ?_, rfl⟩
  · intro es v h
    simp [extract_output, h]
  · intro es ms h1 h2 h3 h4 h5
    have h6 : (collectTexts ms).isEmpty = false := by
      cases hc : collectTexts ms with
      | nil => exact absurd hc h5
      | cons a t => rfl
    simp [extract_output, h1, h2, h3, h4, h6]
  · intro es h1 h2 h3 h4
    simp [extract_output, h1, h2, h3, h4]

/-- Claim C3, witness: the preference clause applied to a dict that carries
both an unrelated field and the output field. -/
theorem c3_extraction_policy_witness :
    extract_output (PyObj.pyDict
      [("other", PyObj.pyStr "noise"), ("output", PyObj.pyStr "wanted")]) =
      PyObj.pyStr "wanted" :=
  c3_extraction_policy.1 _ _ rfl

/-- Claim C4: the draft step completes fully before the refinement step
begins (the second component is literally the proactive step applied to the
first), and when validation fails with a truthy message the refinement still
runs, with the error-prefixed draft string as its draft input. -/
theorem c4_sequencing (W : World) (prompt : String) (gc : GroqConfig)
    (mc : GeminiConfig) (env : EnvMap) :
    (run_agents_parallel W prompt gc mc env).1.1 = (run_reactive W prompt gc).1 ∧
    (run_agents_parallel W prompt gc mc env).1.2 =
      (run_proactive W prompt mc (run_reactive W prompt gc).1 env).1 ∧
    (∀ e, e ≠ "" → W.groq_health gc.api_key gc.model = Except.error e →
      (run_reactive W prompt gc).1 = "Reactive Agent Error: " ++ e ∧
      (run_agents_parallel W prompt gc mc env).1.2 =
        (run_proactive W prompt mc ("Reactive Agent Error: " ++ e) env).1) := by
  refine ⟨rfl, rfl, ?_⟩
  intro e he hh
  have hbe : (e == "") = false := beq_eq_false_iff_ne.mpr he
  have hfst : (run_reactive W prompt gc).1 = "Reactive Agent Error: " ++ e := by
    simp [run_reactive, validate_groq_key, hh, optTruthy, hbe]
  refine ⟨hfst, ?_⟩
  show (run_proactive W prompt mc (run_reactive W prompt gc).1 env).1 = _
  rw [hfst]

/-- Claim C4, witness: in the world whose health check raises an auth error,
the runner returns the error-prefixed draft and still refines that error
text. -/
theorem c4_sequencing_witness :
    (run_reactive wAuthErr "topic" gcfg0).1 = "Reactive Agent Error: " ++ "auth failed" ∧
    (run_agents_parallel wAuthErr "topic" gcfg0 mcfg0 []).1.2 =
      (run_proactive wAuthErr "topic" mcfg0 ("Reactive Agent Error: " ++ "auth failed") []).1 :=
  (c4_sequencing wAuthErr "topic" gcfg0 mcfg0 []).2.2 "auth failed" (by decide) rfl

/-- Claim C5, counterexample: in the world whose health check raises an
exception with empty str() form, validate reports the failure as the empty
string — a failure on which the returned error message is not non-empty. -/
theorem c5_counterexample :
    wEmptyErr.groq_health "k" "m" = Except.error "" ∧
    (validate_groq_key wEmptyErr "k" "m").1 = some "" :=
  ⟨rfl, rfl⟩

/-- Claim C5 (amended): validate returns None iff the health-check call
succeeds, never raises (it is a total function), and on every failure
returns exactly the str() form of the raised exception — which is non-empty
exactly when that message is. -/
theorem c5_validate (W : World) (api_key model : String) :
    ((validate_groq_key W api_key model).1 = none ↔
      W.groq_health api_key model = Except.ok ()) ∧
    (∀ e, W.groq_health api_key model = Except.error e →
      (validate_groq_key W api_key model).1 = some e) := by
  cases hh : W.groq_health api_key model with
  | ok u =>
    cases u
    constructor
    · simp [validate_groq_key, hh]
    · intro e he
      exact absurd he (by simp)
  | error e0 =>
    constructor
    · constructor
      · intro h
        simp [validate_groq_key, hh] at h
      · intro h
        exact absurd h (by simp)
    · intro e he
      simp only [Except.error.injEq] at he
      subst he
      simp [validate_groq_key, hh]

/-- Claim C5, witness: the failure clause applied in the auth-error world. -/
theorem c5_validate_witness :
    (validate_groq_key wAuthErr "k" "m").1 = some "auth failed" :=
  (c5_validate wAuthErr "k" "m").2 "auth failed" rfl

/-- Claim C6: when validation succeeds (and the drafting call returns
content c), the draft step issues exactly one drafting completion call to
the fast provider — the trace holds the two validator health checks and a
single draftCompletion event — and returns the content of that call
verbatim. -/
theorem c6_single_completion (W : World) (prompt : String) (cfg : GroqConfig)
    (c : String)
    (hval : W.groq_health cfg.api_key cfg.model = Except.ok ())
    (hinv : W.groq_invoke cfg.api_key cfg.model cfg.temperature prompt = Except.ok c) :
    run_reactive W prompt cfg =
      (c, [ProviderCall.health cfg.api_key cfg.model,
           ProviderCall.health cfg.api_key cfg.model,
           ProviderCall.draftCompletion cfg.api_key cfg.model prompt]) ∧
    draftCalls (run_reactive W prompt cfg).2 = 1 := by
  have hrun : run_reactive W prompt cfg =
      (c, [ProviderCall.health cfg.api_key cfg.model,
           ProviderCall.health cfg.api_key cfg.model,
           ProviderCall.draftCompletion cfg.api_key cfg.model prompt]) := by
    simp [run_reactive, validate_groq_key, create_reactive_agent, hval, hinv, optTruthy]
  refine ⟨hrun, ?_⟩
  rw [hrun]
  simp [draftCalls, List.filter, ProviderCall.isDraft]

/-- Claim C6, witness: in the happy world the draft step returns DRAFT and
its trace holds exactly one drafting completion call. -/
theorem c6_single_completion_witness :
    run_reactive wHappy "topic" gcfg0 =
      ("DRAFT", [ProviderCall.health gcfg0.api_key gcfg0.model,
                 ProviderCall.health gcfg0.api_key gcfg0.model,
                 ProviderCall.draftCompletion gcfg0.api_key gcfg0.model "topic"]) ∧
    draftCalls (run_reactive wHappy "topic" gcfg0).2 = 1 :=
  c6_single_completion wHappy "topic" gcfg0 "DRAFT" rfl rfl

/-- Claim C7: the search tool is instantiated only when search is enabled
and a truthy Tavily key is present (any tool-construction event in the trace,
and any tools-present outcome, implies both); when search is enabled but the
key is empty the construction is skipped entirely and creation proceeds
tool-free with the environment untouched; and when the construction raises,
the agent is still created, without the tool. -/
theorem c7_tool_gating (W : World) (api_key model_name : String)
    (temperature : Rat) (use_search : Bool) (tavily_api_key : Option String)
    (env : EnvMap) :
    ((create_proactive_agent W api_key model_name temperature use_search
        tavily_api_key env).2.2 ≠ [] →
      use_search = true ∧ optTruthy tavily_api_key = true) ∧
    ((create_proactive_agent W api_key model_name temperature use_search
        tavily_api_key env).1 = true →
      use_search = true ∧ optTruthy tavily_api_key = true) ∧
    (use_search = true → optTruthy tavily_api_key = false →
      create_proactive_agent W api_key model_name temperature use_search
        tavily_api_key env = (false, env, [])) ∧
    (∀ e, use_search = true → optTruthy tavily_api_key = true →
      W.tavily_init (setEnv env "TAVILY_API_KEY" (tavily_api_key.getD "")) =
        Except.error e →
      create_proactive_agent W api_key model_name temperature use_search
        tavily_api_key env =
        (false, setEnv env "TAVILY_API_KEY" (tavily_api_key.getD ""),
          [ProviderCall.toolCreate
            (setEnv env "TAVILY_API_KEY" (tavily_api_key.getD ""))])) := by
  by_cases hc : (use_search && optTruthy tavily_api_key) = true
  · have hu : use_search = true := (Bool.and_eq_true _ _).mp hc |>.1
    have hk : optTruthy tavily_api_key = true := (Bool.and_eq_true _ _).mp hc |>.2
    refine ⟨fun _ => ⟨hu, hk⟩, fun _ => ⟨hu, hk⟩, ?_, ?_⟩
    · intro _ hk2
      rw [hk] at hk2
      exact absurd hk2 (by simp)
    · intro e _ _ hinit
      simp [create_proactive_agent, hc, hinit]
  · have hc2 : (use_search && optTruthy tavily_api_key) = false :=
      Bool.eq_false_iff.mpr hc
    have hcreate : create_proactive_agent W api_key model_name temperature
        use_search tavily_api_key env = (false, env, []) := by
      simp only [create_proactive_agent, hc2]
      rfl
    refine ⟨?_, ?_, ?_, ?_⟩
    · intro h
      rw [hcreate] at h
      exact absurd rfl h
    · intro h
      rw [hcreate] at h
      exact absurd h (by simp)
    · intro _ _
      exact hcreate
    · intro e hu hk _
      rw [hu, hk] at hc2
      exact absurd hc2 (by simp)

/-- Claim C7, witness: search enabled with a key but a failing Tavily
constructor still yields a tool-free agent, with the key written to the
environment. -/
theorem c7_tool_gating_witness :
    create_proactive_agent wTavFail "gem-key" "gemini-2.5-flash" 0 true
      (some "tav-key") [] =
      (false, setEnv [] "TAVILY_API_KEY" "tav-key",
        [ProviderCall.toolCreate (setEnv [] "TAVILY_API_KEY" "tav-key")]) :=
  (c7_tool_gating wTavFail "gem-key" "gemini-2.5-flash" 0 true
    (some "tav-key") []).2.2.2 "bad tavily key" rfl rfl rfl

/-- Claim C8: when search is enabled and a truthy key is supplied, the full
run leaves TAVILY_API_KEY set to that key in the final process environment —
nothing later restores or clears it; when search is disabled or the key is
absent or empty, the environment comes back unchanged. -/
theorem c8_env_effect (W : World) (prompt : String) (gc : GroqConfig)
    (mc : GeminiConfig) (env : EnvMap) :
    (mc.use_search = true → optTruthy mc.tavily_key = true →
      getEnv (run_agents_parallel W prompt gc mc env).2.1 "TAVILY_API_KEY" =
        some (mc.tavily_key.getD "")) ∧
    ((mc.use_search && optTruthy mc.tavily_key) = false →
      (run_agents_parallel W prompt gc mc env).2.1 = env) := by
  have henv : (run_agents_parallel W prompt gc mc env).2.1 =
      (create_proactive_agent W mc.api_key mc.model mc.temperature
        mc.use_search mc.tavily_key env).2.1 :=
    run_proactive_env W prompt mc (run_reactive W prompt gc).1 env
  constructor
  · intro hu hk
    rw [henv]
    have hc : (mc.use_search && optTruthy mc.tavily_key) = true := by
      rw [hu, hk]
      rfl
    have h2 : (create_proactive_agent W mc.api_key mc.model mc.temperature
        mc.use_search mc.tavily_key env).2.1 =
        setEnv env "TAVILY_API_KEY" (mc.tavily_key.getD "") := by
      simp only [create_proactive_agent, hc, if_true]
      cases ht : W.tavily_init (setEnv env "TAVILY_API_KEY" (mc.tavily_key.getD "")) with
      | ok u => rfl
      | error e => rfl
    rw [h2]
    exact getEnv_setEnv env "TAVILY_API_KEY" (mc.tavily_key.getD "")
  · intro hc
    rw [henv]
    simp only [create_proactive_agent, hc]
    rfl

/-- Claim C8, witness: a run with search enabled and key tav-key ends with
TAVILY_API_KEY bound to tav-key, and a run with search disabled leaves the
(empty) environment unchanged. -/
theorem c8_env_effect_witness :
    getEnv (run_agents_parallel wHappy "topic" gcfg0 mcfg1 []).2.1
      "TAVILY_API_KEY" = some "tav-key" ∧
    (run_agents_parallel wHappy "topic" gcfg0 mcfg0 []).2.1 = [] :=
  ⟨(c8_env_effect wHappy "topic" gcfg0 mcfg1 []).1 rfl rfl,
   (c8_env_effect wHappy "topic" gcfg0 mcfg0 []).2 rfl⟩

/-- Changing the Groq api key changes the draft result only through the
outcomes of the health-check and drafting calls. -/
theorem run_reactive_key_congr (W : World) (prompt k k2 m : String) (t : Rat)
    (h1 : W.groq_health k m = W.groq_health k2 m)
    (h2 : W.groq_invoke k m t prompt = W.groq_invoke k2 m t prompt) :
    (run_reactive W prompt ⟨k, m, t⟩).1 = (run_reactive W prompt ⟨k2, m, t⟩).1 := by
  cases hh : W.groq_health k2 m with
  | ok u =>
    cases hi : W.groq_invoke k2 m t prompt with
    | ok c =>
      simp [run_reactive, validate_groq_key, create_reactive_agent,
        h1, h2, hh, hi, optTruthy]
    | error e =>
      simp [run_reactive, validate_groq_key, create_reactive_agent,
        h1, h2, hh, hi, optTruthy]
  | error e =>
    by_cases he : e = ""
    · subst he
      cases hi : W.groq_invoke k2 m t prompt with
      | ok c =>
        simp [run_reactive, validate_groq_key, create_reactive_agent,
          h1, h2, hh, hi, optTruthy]
      | error e2 =>
        simp [run_reactive, validate_groq_key, create_reactive_agent,
          h1, h2, hh, hi, optTruthy]
    · have hbe : (e == "") = false := beq_eq_false_iff_ne.mpr he
      simp [run_reactive, validate_groq_key, create_reactive_agent,
        h1, hh, optTruthy, hbe]

/-- Changing the Gemini api key changes the refinement result only through
the outcome of the executor invoke. -/
theorem run_proactive_key_congr (W : World) (prompt draft k k2 m : String)
    (t : Rat) (us : Bool) (tv : Option String) (env : EnvMap)
    (h3 : ∀ b e, W.gemini_invoke k m t b e draft prompt =
      W.gemini_invoke k2 m t b e draft prompt) :
    (run_proactive W prompt ⟨k, m, t, us, tv⟩ draft env).1 =
      (run_proactive W prompt ⟨k2, m, t, us, tv⟩ draft env).1 := by
  have hcr : create_proactive_agent W k m t us tv env =
      create_proactive_agent W k2 m t us tv env := rfl
  cases hg : W.gemini_invoke k2 m t
      (create_proactive_agent W k2 m t us tv env).1
      (create_proactive_agent W k2 m t us tv env).2.1 draft prompt with
  | ok r => simp [run_proactive, h3, hcr, hg]
  | error e => simp [run_proactive, h3, hcr, hg]

/-- Claim C9: the provider api keys influence the two returned strings only
through the opaque provider calls: whenever the oracle outcomes do not
distinguish two keys, both results of run_agents_parallel (and the message
returned by validate) are identical — the orchestration code itself never
injects a key into any result. -/
theorem c9_key_noninterference (W : World) (prompt : String) (env : EnvMap)
    (gc gc2 : GroqConfig) (mc mc2 : GeminiConfig)
    (hgm : gc.model = gc2.model) (hgt : gc.temperature = gc2.temperature)
    (hmm : mc.model = mc2.model) (hmt : mc.temperature = mc2.temperature)
    (hms : mc.use_search = mc2.use_search) (hmk : mc.tavily_key = mc2.tavily_key)
    (h1 : ∀ m, W.groq_health gc.api_key m = W.groq_health gc2.api_key m)
    (h2 : ∀ m t p, W.groq_invoke gc.api_key m t p = W.groq_invoke gc2.api_key m t p)
    (h3 : ∀ m t b e d p, W.gemini_invoke mc.api_key m t b e d p =
      W.gemini_invoke mc2.api_key m t b e d p) :
    (run_agents_parallel W prompt gc mc env).1 =
      (run_agents_parallel W prompt gc2 mc2 env).1 ∧
    (validate_groq_key W gc.api_key gc.model).1 =
      (validate_groq_key W gc2.api_key gc2.model).1 := by
  obtain ⟨gk, gm, gt⟩ := gc
  obtain ⟨gk2, gm2, gt2⟩ := gc2
  obtain ⟨mk, mm, mt, ms, mtv⟩ := mc
  obtain ⟨mk2, mm2, mt2, ms2, mtv2⟩ := mc2
  dsimp only at hgm hgt hmm hmt hms hmk h1 h2 h3 ⊢
  subst hgm hgt hmm hmt hms hmk
  have hr : (run_reactive W prompt ⟨gk, gm, gt⟩).1 =
      (run_reactive W prompt ⟨gk2, gm, gt⟩).1 :=
    run_reactive_key_congr W prompt gk gk2 gm gt (h1 gm) (h2 gm gt prompt)
  constructor
  · show ((run_reactive W prompt ⟨gk, gm, gt⟩).1,
        (run_proactive W prompt ⟨mk, mm, mt, ms, mtv⟩
          (run_reactive W prompt ⟨gk, gm, gt⟩).1 env).1) =
      ((run_reactive W prompt ⟨gk2, gm, gt⟩).1,
        (run_proactive W prompt ⟨mk2, mm, mt, ms, mtv⟩
          (run_reactive W prompt ⟨gk2, gm, gt⟩).1 env).1)
    rw [hr]
    exact congrArg _ (run_proactive_key_congr W prompt
      (run_reactive W prompt ⟨gk2, gm, gt⟩).1 mk mk2 mm mt ms mtv env
      (fun b e => h3 mm mt b e (run_reactive W prompt ⟨gk2, gm, gt⟩).1 prompt))
  · simp [validate_groq_key, h1 gm]

/-- Claim C9, witness: in the constant happy world (whose oracle ignores the
keys) two runs differing only in both api keys return the same pair. -/
theorem c9_key_noninterference_witness :
    (run_agents_parallel wHappy "topic" ⟨"key-one", "m", 0⟩
        ⟨"gem-one", "gm", 0, false, none⟩ []).1 =
      (run_agents_parallel wHappy "topic" ⟨"key-two", "m", 0⟩
        ⟨"gem-two", "gm", 0, false, none⟩ []).1 :=
  (c9_key_noninterference wHappy "topic" [] ⟨"key-one", "m", 0⟩
    ⟨"key-two", "m", 0⟩ ⟨"gem-one", "gm", 0, false, none⟩
    ⟨"gem-two", "gm", 0, false, none⟩ rfl rfl rfl rfl rfl rfl
    (fun _ => rfl) (fun _ _ _ => rfl) (fun _ _ _ _ _ _ => rfl)).1

/-- Claim C10: a missing (None) key maps to the empty string; a pasted key
is sanitised by stripping leading/trailing whitespace, then leading/trailing
double quotes, then leading/trailing single quotes (each stage removes a run
at each end, maximally); and the configs assembled for the agents carry only
sanitised keys. -/
theorem c10_sanitize :
    _sanitize none = "" ∧
    (∀ k, stripSpec pyIsSpace k (pyStrip pyIsSpace k) ∧
      stripSpec isDoubleQuote (pyStrip pyIsSpace k)
        (pyStrip isDoubleQuote (pyStrip pyIsSpace k)) ∧
      stripSpec isSingleQuote (pyStrip isDoubleQuote (pyStrip pyIsSpace k))
        (_sanitize (some k))) ∧
    (∀ s g m, gather_configs s = some (g, m) →
      g.api_key = _sanitize s.groq_key_input ∧
      m.api_key = _sanitize s.gemini_key_input ∧
      m.tavily_key =
        some (if s.use_search then _sanitize s.tavily_key_input else "")) := by
  refine ⟨rfl, ?_, ?_⟩
  · intro k
    exact ⟨pyStrip_sound pyIsSpace k,
      pyStrip_sound isDoubleQuote (pyStrip pyIsSpace k),
      pyStrip_sound isSingleQuote (pyStrip isDoubleQuote (pyStrip pyIsSpace k))⟩
  · intro s g m h
    simp only [gather_configs] at h
    by_cases hu : s.use_search = true
    · simp only [hu, if_true] at h
      split at h
      · exact absurd h (by simp)
      · simp only [Option.some.injEq, Prod.mk.injEq] at h
        obtain ⟨h1, h2⟩ := h
        subst h1
        subst h2
        exact ⟨rfl, rfl, by simp [hu]⟩
    · have hu2 : s.use_search = false := Bool.eq_false_iff.mpr hu
      simp only [hu2, if_false, Bool.false_and] at h
      split at h
      · exact absurd h (by simp)
      · simp only [Option.some.injEq, Prod.mk.injEq] at h
        obtain ⟨h1, h2⟩ := h
        subst h1
        subst h2
        exact ⟨rfl, rfl, by simp [hu2]⟩

/-- Claim C10, witness: the config-assembly clause applied to the concrete
sidebar state with quoted, padded keys. -/
theorem c10_sanitize_witness :
    (⟨"groq-key", "llama-3.1-8b-instant", 0⟩ : GroqConfig).api_key =
      _sanitize appState0.groq_key_input ∧
    (⟨"gem-key", "gemini-2.5-flash", 0, true, some "tav-key"⟩ : GeminiConfig).api_key =
      _sanitize appState0.gemini_key_input ∧
    (⟨"gem-key", "gemini-2.5-flash", 0, true, some "tav-key"⟩ : GeminiConfig).tavily_key =
      some (if appState0.use_search then _sanitize appState0.tavily_key_input else "") :=
  c10_sanitize.2.2 appState0 _ _ (by rfl)
